import Mathlib

/-!
Verification of the Asya actor runtime (asya_runtime.py) and the terminal
handlers (end_handlers.py) against their natural-language specification.

The Python code is shallowly embedded: JSON/Python values become the
inductive `JVal`, Python exceptions become the structure `PyExc`, fallible
Python code returns `Except PyExc _`, and the byte stream of the Unix
socket is a `List Nat` of byte values read deterministically (each `recv`
returns as many of the requested bytes as remain).
-/

set_option maxHeartbeats 1000000

namespace Asya

/-- A JSON value as produced by Python `json.loads`: `null`, booleans,
integers, strings, arrays and objects.  Objects are association lists;
`json.loads` produces unique keys, and lookups take the first match. -/
inductive JVal where
  | null
  | b (v : Bool)
  | i (v : Int)
  | s (v : String)
  | arr (items : List JVal)
  | obj (fields : List (String × JVal))

/-- A Python exception: class name, `str(exc)` message, and the formatted
traceback text (content abstracted as an opaque string). -/
structure PyExc where
  ty : String
  msg : String
  tb : String
deriving DecidableEq

/-- Shorthand for `ValueError(m)` as raised throughout asya_runtime.py. -/
def valueError (m : String) : PyExc := { ty := "ValueError", msg := m, tb := "" }

/-- Python type name of a value, as it appears in TypeError messages. -/
def pyTypeName : JVal → String
  | .null => "NoneType"
  | .b _ => "bool"
  | .i _ => "int"
  | .s _ => "str"
  | .arr _ => "list"
  | .obj _ => "dict"

/-- Python `isinstance(v, int)`: `True`/`False` are instances of `int`. -/
def pyIsInt : JVal → Bool
  | .i _ => true
  | .b _ => true
  | _ => false

/-- Numeric value of a Python int (booleans coerce to 0/1). -/
def pyToInt : JVal → Int
  | .i n => n
  | .b true => 1
  | .b false => 0
  | _ => 0

/-- Python truthiness of a JSON value (`if not x`). -/
def pyTruthy : JVal → Bool
  | .null => false
  | .b v => v
  | .i n => n != 0
  | .s v => !(v == "")
  | .arr items => !items.isEmpty
  | .obj fields => !fields.isEmpty

mutual
/-- Python `==` on JSON values: structural, except that booleans compare
equal to the integers 0/1 as in Python.  Objects are compared
field-list-wise (faithful for `json.loads` results up to key order). -/
def pyEq : JVal → JVal → Bool
  | .null, .null => true
  | .b x, .b y => x == y
  | .b x, .i n => (if x then (1 : Int) else 0) == n
  | .i n, .b x => n == (if x then (1 : Int) else 0)
  | .i m, .i n => m == n
  | .s x, .s y => x == y
  | .arr xs, .arr ys => pyEqList xs ys
  | .obj xs, .obj ys => pyEqFields xs ys
  | _, _ => false

def pyEqList : List JVal → List JVal → Bool
  | [], [] => true
  | x :: xs, y :: ys => pyEq x y && pyEqList xs ys
  | _, _ => false

def pyEqFields : List (String × JVal) → List (String × JVal) → Bool
  | [], [] => true
  | (k₁, v₁) :: xs, (k₂, v₂) :: ys => k₁ == k₂ && pyEq v₁ v₂ && pyEqFields xs ys
  | _, _ => false
end

mutual
/-- Python `repr` of a JSON value (as interpolated by f-strings inside
containers). -/
def pyRepr : JVal → String
  | .null => "None"
  | .b true => "True"
  | .b false => "False"
  | .i n => toString n
  | .s v => "\x27" ++ v ++ "\x27"
  | .arr items => "[" ++ pyReprList items ++ "]"
  | .obj fields => "\x7b" ++ pyReprFields fields ++ "\x7d"

def pyReprList : List JVal → String
  | [] => ""
  | [x] => pyRepr x
  | x :: xs => pyRepr x ++ ", " ++ pyReprList xs

def pyReprFields : List (String × JVal) → String
  | [] => ""
  | [(k, v)] => "\x27" ++ k ++ "\x27: " ++ pyRepr v
  | (k, v) :: xs => "\x27" ++ k ++ "\x27: " ++ pyRepr v ++ ", " ++ pyReprFields xs
end

/-- Python `str` of a JSON value, as interpolated by f-strings. -/
def pyStr : JVal → String
  | .s v => v
  | v => pyRepr v

/-- Substring test on the character lists of two strings (Python `in` on
`str`). -/
def strContains (hay needle : String) : Bool :=
  (List.range (hay.toList.length + 1)).any
    (fun k => needle.toList.isPrefixOf (hay.toList.drop k))

/-- Python `key in v`: key membership for dicts, element membership for
lists, substring test for strings; TypeError for non-iterable values. -/
def pyContains (key : String) (v : JVal) : Except PyExc Bool :=
  match v with
  | .obj fields => .ok ((fields.lookup key).isSome)
  | .arr items => .ok (items.any (fun x => pyEq x (.s key)))
  | .s str => .ok (strContains str key)
  | v =>
    .error { ty := "TypeError",
             msg := "argument of type \x27" ++ pyTypeName v ++ "\x27 is not iterable",
             tb := "" }

/-- Python `v[key]` for a string key: dict lookup (KeyError when missing),
TypeError for lists, strings and non-subscriptable values. -/
def pyGetItem (key : String) (v : JVal) : Except PyExc JVal :=
  match v with
  | .obj fields =>
    match fields.lookup key with
    | some x => .ok x
    | none => .error { ty := "KeyError", msg := "\x27" ++ key ++ "\x27", tb := "" }
  | .arr _ =>
    .error { ty := "TypeError",
             msg := "list indices must be integers or slices, not str", tb := "" }
  | .s _ =>
    .error { ty := "TypeError", msg := "string indices must be integers", tb := "" }
  | v =>
    .error { ty := "TypeError",
             msg := "\x27" ++ pyTypeName v ++ "\x27 object is not subscriptable",
             tb := "" }

/-- Python `items[idx]` with an integer index: negative in-range indices
wrap around; out of range raises IndexError.  (Only reached on lists in
the embedded code; the validator checks `isinstance(route["steps"], list)`
before indexing.) -/
def pyIndex (v idx : JVal) : Except PyExc JVal :=
  match v with
  | .arr items =>
    if pyIsInt idx then
      let n := pyToInt idx
      let n' := if n < 0 then n + items.length else n
      if h : 0 ≤ n' ∧ n' < (items.length : Int) then
        .ok (items.get ⟨n'.toNat, by omega⟩)
      else
        .error { ty := "IndexError", msg := "list index out of range", tb := "" }
    else
      .error { ty := "TypeError",
               msg := "list indices must be integers or slices, not " ++ pyTypeName idx,
               tb := "" }
  | v =>
    .error { ty := "TypeError",
             msg := "\x27" ++ pyTypeName v ++ "\x27 object is not subscriptable",
             tb := "" }

/-- Python `v.get(key, dflt)`: dict lookup with default; AttributeError on
non-dicts. -/
def pyGet (key : String) (dflt : JVal) (v : JVal) : Except PyExc JVal :=
  match v with
  | .obj fields => .ok ((fields.lookup key).getD dflt)
  | v =>
    .error { ty := "AttributeError",
             msg := "\x27" ++ pyTypeName v ++ "\x27 object has no attribute \x27get\x27",
             tb := "" }

/-! ## Frame codec (`_recv_exact`, `_send_msg`) -/

/-- The exception raised by `_recv_exact` when the peer closes the stream:
`ConnectionError("Connection closed while reading")`. -/
def connClosed : PyExc :=
  { ty := "ConnectionError", msg := "Connection closed while reading", tb := "" }

/-- Loop body of `_recv_exact`: repeatedly `recv(min(remaining, chunk))`
from the deterministic stream `s` until `remaining` bytes are collected,
raising `connClosed` when the stream is exhausted first.  The first
argument is fuel bounding the number of loop iterations; every productive
iteration consumes at least one byte of `remaining`, so `remaining` itself
is always a sufficient fuel and `recvExact` instantiates it so. -/
def recvExactGo (chunk : Nat) : Nat → Nat → List Nat → Except PyExc (List Nat × List Nat)
  | _, 0, s => .ok ([], s)
  | 0, _ + 1, _ => .error connClosed
  | fuel + 1, n + 1, s =>
    let c := s.take (min (n + 1) chunk)
    if c.length = 0 then .error connClosed
    else
      match recvExactGo chunk fuel (n + 1 - c.length) (s.drop c.length) with
      | .error e => .error e
      | .ok (rest, s₂) => .ok (c ++ rest, s₂)

/-- `_recv_exact(sock, n)`: read exactly `n` bytes from the stream in
chunks of at most `chunk` bytes; returns the bytes read and the rest of
the stream. -/
def recvExact (chunk n : Nat) (s : List Nat) : Except PyExc (List Nat × List Nat) :=
  recvExactGo chunk n n s

/-- `struct.pack(">I", n)`: 4-byte big-endian encoding of a length. -/
def packBE4 (n : Nat) : List Nat :=
  [n / 16777216 % 256, n / 65536 % 256, n / 256 % 256, n % 256]

/-- `struct.unpack(">I", bs)[0]` on a 4-byte string. -/
def unpackBE4 (bs : List Nat) : Nat :=
  match bs with
  | [b₀, b₁, b₂, b₃] => ((b₀ * 256 + b₁) * 256 + b₂) * 256 + b₃
  | _ => 0

/-- `_send_msg(sock, data)`: the bytes put on the wire, a 4-byte
big-endian length prefix followed by the body, sent as one write. -/
def sendMsg (data : List Nat) : List Nat :=
  packBE4 data.length ++ data

/-- The frame-reading prefix of `_handle_request` (lines 212-214): read
exactly 4 bytes, decode the length, read exactly that many body bytes.
Returns the body and the unread remainder of the stream. -/
def readFrame (chunk : Nat) (s : List Nat) : Except PyExc (List Nat × List Nat) :=
  match recvExact chunk 4 s with
  | .error e => .error e
  | .ok (lenBytes, s₁) =>
    match recvExact chunk (unpackBE4 lenBytes) s₁ with
    | .error e => .error e
    | .ok (data, s₂) => .ok (data, s₂)

/-! ## Message validation (`_validate_message_syntax`, `_get_current_step`) -/

/-- The dict `{"payload": msg["payload"], "route": msg["route"]}` returned
by `_validate_message_syntax` (lines 184-187). -/
def validatedView (msg : JVal) : Except PyExc JVal :=
  match pyGetItem "payload" msg, pyGetItem "route" msg with
  | .ok p, .ok r => .ok (.obj [("payload", p), ("route", r)])
  | .error e, _ => .error e
  | _, .error e => .error e

/-- `_validate_message_syntax(msg, expected_current_step)`: the checks of
lines 148-187, in source order, with Python membership / subscript /
isinstance semantics.  On success returns the `{payload, route}` view of
`msg`. -/
def validateMessageSyntax (msg : JVal) (expected : Option JVal) : Except PyExc JVal :=
  match pyContains "payload" msg with
  | .error e => .error e
  | .ok false => .error (valueError "Missing required field \x27payload\x27 in message")
  | .ok true =>
  match pyContains "route" msg with
  | .error e => .error e
  | .ok false => .error (valueError "Missing required field \x27route\x27 in message")
  | .ok true =>
  match pyGetItem "route" msg with
  | .error e => .error e
  | .ok route =>
  match route with
  | .obj rFields =>
    match rFields.lookup "steps" with
    | none => .error (valueError "Missing required field \x27steps\x27 in route")
    | some stepsV =>
    match stepsV with
    | .arr steps =>
      match rFields.lookup "current" with
      | none => .error (valueError "Missing required field \x27current\x27 in route")
      | some curV =>
      if pyIsInt curV = false then
        .error (valueError "Field \x27route.current\x27 must be an integer")
      else if pyToInt curV < 0 ∨ (steps.length : Int) ≤ pyToInt curV then
        .error (valueError ("Invalid route.current=" ++ pyStr curV ++
          ": out of bounds for steps of length " ++ toString steps.length))
      else
        match expected with
        | some exp =>
          match pyIndex (.arr steps) curV with
          | .error e => .error e
          | .ok actual =>
            if pyEq actual exp = false then
              .error (valueError ("Route mismatch: input route points to \x27" ++
                pyStr exp ++ "\x27, but output route points to \x27" ++ pyStr actual ++
                "\x27. Actor cannot change its current position in the route."))
            else validatedView msg
        | none => validatedView msg
    | _ => .error (valueError "Field \x27route.steps\x27 must be a list")
  | _ => .error (valueError "Field \x27route\x27 must be a dict")

/-- `_get_current_step(msg)`: `msg["route"]["steps"][msg["route"]["current"]]`. -/
def getCurrentStep (msg : JVal) : Except PyExc JVal :=
  match pyGetItem "route" msg with
  | .error e => .error e
  | .ok route =>
    match pyGetItem "steps" route with
    | .error e => .error e
    | .ok steps =>
      match pyGetItem "current" route with
      | .error e => .error e
      | .ok cur => pyIndex steps cur

/-! ## Request handling (`_error_response`, `_handle_request`) -/

/-- `_error_response(code, exc)`: a one-element list holding the error
envelope with `details.message`, `details.type`, `details.traceback`. -/
def errorResponse (code : String) (e : PyExc) : List JVal :=
  [.obj [("error", .s code),
         ("details", .obj [("message", .s e.msg), ("type", .s e.ty),
                           ("traceback", .s e.tb)])]]

/-- Return normalisation of the handler result (lines 236-241 / 248-253):
`None` gives zero outputs, a list/tuple gives its elements in order, any
other value gives one output. -/
def normaliseReturn : JVal → List JVal
  | .null => []
  | .arr items => items
  | v => [v]

/-- One iteration of the output-validation loop (line 259-261): compute the
expected step from the input message and validate one output against it. -/
def outputCheck (msg out : JVal) : Except PyExc JVal :=
  match getCurrentStep msg with
  | .error e => .error e
  | .ok exp => validateMessageSyntax out (some exp)

/-- The output-validation loop of lines 256-265: validate each output in
turn; a ValueError is re-raised wrapped as
`Invalid output message[i/total]: <reason>`; other exception types
propagate unwrapped (the `except` clause catches only ValueError). -/
def validateOutputs (msg : JVal) : List JVal → Nat → Nat → Except PyExc Unit
  | [], _, _ => .ok ()
  | out :: rest, idx, total =>
    match outputCheck msg out with
    | .error e =>
      if e.ty = "ValueError" then
        .error (valueError ("Invalid output message[" ++ toString idx ++ "/" ++
          toString total ++ "]: " ++ e.msg))
      else .error e
    | .ok _ => validateOutputs msg rest (idx + 1) total

/-- The handler-invocation block of `_handle_request` (lines 231-270, the
body of the `try`): call the user function in payload or message mode and
normalise/validate/wrap its outputs.  An `.error` result is an exception
reaching line 275 (caught there as `processing_error`). -/
def processMessage (argType : String) (enableValidation : Bool)
    (userFunc : JVal → Except PyExc JVal) (msg : JVal) : Except PyExc (List JVal) :=
  if argType = "payload" then
    match pyGetItem "payload" msg with
    | .error e => .error e
    | .ok p =>
      match userFunc p with
      | .error e => .error e
      | .ok out =>
        match normaliseReturn out with
        | [] => .ok []
        | outs =>
          match pyGetItem "route" msg with
          | .error e => .error e
          | .ok r => .ok (outs.map fun o => .obj [("payload", o), ("route", r)])
  else if argType = "message" then
    match userFunc msg with
    | .error e => .error e
    | .ok out =>
      let outs := normaliseReturn out
      if enableValidation then
        match validateOutputs msg outs 0 outs.length with
        | .error e => .error e
        | .ok _ => .ok outs
      else .ok outs
  else
    .error (valueError ("Invalid ASYA_HANDLER_ARG_TYPE=" ++ argType ++
      ": not in (\x27message\x27, \x27payload\x27)"))

/-- The exception classes caught by the parse/validate `except` clause at
line 228: `(json.JSONDecodeError, UnicodeDecodeError, KeyError, ValueError)`. -/
def caughtParseTypes : List String :=
  ["JSONDecodeError", "UnicodeDecodeError", "KeyError", "ValueError"]

/-- `_handle_request` from the parse step onward (lines 222-277), given the
outcome of `json.loads` on the frame body.  `.ok` is the structured
response list; `.error` is an exception escaping `_handle_request`
uncaught (so no response at all is sent). -/
def handleParsed (argType : String) (enableValidation : Bool)
    (userFunc : JVal → Except PyExc JVal) (parsed : Except PyExc JVal) :
    Except PyExc (List JVal) :=
  match parsed with
  | .error e =>
    if caughtParseTypes.contains e.ty then .ok (errorResponse "msg_parsing_error" e)
    else .error e
  | .ok rawMsg =>
    match (if enableValidation then validateMessageSyntax rawMsg none else .ok rawMsg) with
    | .error e =>
      if caughtParseTypes.contains e.ty then .ok (errorResponse "msg_parsing_error" e)
      else .error e
    | .ok msg =>
      match processMessage argType enableValidation userFunc msg with
      | .error e => .ok (errorResponse "processing_error" e)
      | .ok outs => .ok outs

/-- `_handle_request(conn, user_func)` over the deterministic stream `s`:
frame read (any failure there is caught at lines 215-220 and answered with
`connection_error`), then parse (abstracted by `parse`, modelling
`_parse_msg_json`), validate and process. -/
def handleRequest (chunk : Nat) (argType : String) (enableValidation : Bool)
    (parse : List Nat → Except PyExc JVal) (userFunc : JVal → Except PyExc JVal)
    (s : List Nat) : Except PyExc (List JVal) :=
  match readFrame chunk s with
  | .error e => .ok (errorResponse "connection_error" e)
  | .ok (data, _) => handleParsed argType enableValidation userFunc (parse data)

/-! ## Handler loading (`_load_function`) and startup order -/

/-- First character class of a handler-name segment: `[a-zA-Z_]`. -/
def isIdentStart (c : Char) : Bool := c.isAlpha || c = '_'

/-- Subsequent character class of a handler-name segment: `[a-zA-Z0-9_]`. -/
def isIdentChar (c : Char) : Bool := c.isAlphanum || c = '_'

/-- One segment of a dotted handler name: `[a-zA-Z_][a-zA-Z0-9_]*`. -/
def identSegment (cs : List Char) : Bool :=
  match cs with
  | [] => false
  | c :: rest => isIdentStart c && rest.all isIdentChar

/-- Split a character list on every dot (keeping empty segments, as the
dots are the only separators of the handler-name grammar). -/
def splitDots : List Char → List (List Char)
  | [] => [[]]
  | c :: rest =>
    if c = '.' then [] :: splitDots rest
    else
      match splitDots rest with
      | seg :: segs => (c :: seg) :: segs
      | [] => [[c]]

/-- The handler-name check of line 62-63: `re.match` against
`^[a-zA-Z_][a-zA-Z0-9_]*(\.[a-zA-Z_][a-zA-Z0-9_]*)+$`.  In Python (no
MULTILINE flag) the `$` anchor matches at the end of the string or just
before a single newline that ends the string, so one trailing newline is
tolerated: the match succeeds iff the string minus at most one trailing
newline consists of at least two dot-separated segments, each a valid
identifier segment (segments cannot contain dots or newlines, so
splitting on dots matches the regex structure). -/
def validHandlerName (s : String) : Bool :=
  let cs := s.toList
  let body := if cs.getLastD ' ' = '\n' then cs.dropLast else cs
  let segs := splitDots body
  decide (2 ≤ segs.length) && segs.all identSegment

/-- `handler.rsplit(".", 1)`: split off the last dot-separated segment. -/
def rsplitDot (s : String) : List String :=
  match splitDots s.toList with
  | [] => [s]
  | [_] => [s]
  | segs =>
    [String.intercalate "." ((segs.dropLast).map (fun cs => String.mk cs)),
     String.mk (segs.getLastD [])]

/-- Outcome of `_load_function()`: an exception propagating out, a
`sys.exit(code)`, or a successfully loaded handler. -/
inductive LoadOutcome where
  | raised (e : PyExc)
  | exited (code : Nat)
  | loaded (modulePath funcName : String)
deriving DecidableEq

/-- `_load_function()` (lines 47-98).  `importOk m f` abstracts whether
`importlib.import_module(m)` plus `getattr(module, f)` yields a callable;
any failure there is caught and turned into `sys.exit(1)`. -/
def loadFunction (argType handler : String) (importOk : String → String → Bool) :
    LoadOutcome :=
  if (["message", "payload"].contains argType) = false then
    .raised (valueError ("Invalid ASYA_HANDLER_ARG_TYPE=" ++ argType ++
      ": not in (\x27message\x27, \x27payload\x27)"))
  else if handler = "" then .exited 1
  else if validHandlerName handler = false then .exited 1
  else
    match rsplitDot handler with
    | [modulePath, funcName] =>
      if importOk modulePath funcName then .loaded modulePath funcName
      else .exited 1
    | _ => .exited 1

/-- `handle_requests` (lines 280-290) calls `_load_function()` strictly
before `_setup_socket(...)`: the listening socket is created (and
connections accepted) exactly when loading returned a handler. -/
def startupReachesSocket (argType handler : String)
    (importOk : String → String → Bool) : Bool :=
  match loadFunction argType handler importOk with
  | .loaded _ _ => true
  | _ => false

/-! ## Error-terminal parsing (`parse_error_message`, end_handlers.py) -/

/-- `parse_error_message(msg)` (end_handlers.py lines 92-121).
`jsonLoads` abstracts `json.loads` on the `original_message` string; the
code catches only `json.JSONDecodeError` from it and then continues with
the raw wrapper.  Returns `(job_id, original_payload, error_description)`;
`.error` is a propagating exception (`ValueError` when `job_id` is missing
or falsy on the message the lookup was performed on). -/
def parseErrorMessage (jsonLoads : String → Except PyExc JVal) (msg : JVal) :
    Except PyExc (JVal × JVal × JVal) :=
  match msg with
  | .obj fields =>
    let errorDesc := (fields.lookup "error").getD (.s "Unknown error")
    let origResult : Except PyExc JVal :=
      match fields.lookup "original_message" with
      | some (.s raw) =>
        match jsonLoads raw with
        | .ok parsed => .ok parsed
        | .error e => if e.ty = "JSONDecodeError" then .ok msg else .error e
      | _ => .ok msg
    match origResult with
    | .error e => .error e
    | .ok origMsg =>
      match pyGet "job_id" .null origMsg with
      | .error e => .error e
      | .ok jobId =>
        if pyTruthy jobId = false then
          .error (valueError "Missing required message key: job_id")
        else
          match pyGet "payload" (.obj []) origMsg with
          | .error e => .error e
          | .ok payload => .ok (jobId, payload, errorDesc)
  | v =>
    .error { ty := "AttributeError",
             msg := "\x27" ++ pyTypeName v ++ "\x27 object has no attribute \x27get\x27",
             tb := "" }

/-! ## Codec lemmas -/

/-- Closed form of the `_recv_exact` loop on the deterministic stream: with
a positive chunk size it returns the first `n` bytes exactly when the
stream holds at least `n` bytes, and raises the connection error
otherwise. -/
theorem recvExactGo_closed (chunk : Nat) (hc : 1 ≤ chunk) :
    ∀ fuel n s, n ≤ fuel →
      recvExactGo chunk fuel n s =
        if n ≤ s.length then .ok (s.take n, s.drop n) else .error connClosed := by
  intro fuel
  induction fuel with
  | zero =>
    intro n s hn
    obtain rfl : n = 0 := by omega
    simp [recvExactGo]
  | succ f ih =>
    intro n s hn
    rcases n with _ | m
    · simp [recvExactGo]
    · simp only [recvExactGo]
      have hlen : (s.take (min (m + 1) chunk)).length = min (min (m + 1) chunk) s.length :=
        List.length_take _ _
      by_cases hs0 : s.length = 0
      · rw [if_pos (by rw [hlen]; omega), if_neg (by omega)]
      · rw [if_neg (by rw [hlen]; omega)]
        rw [ih (m + 1 - (s.take (min (m + 1) chunk)).length)
              (s.drop (s.take (min (m + 1) chunk)).length) (by rw [hlen]; omega)]
        by_cases hms : m + 1 ≤ s.length
        · have hcl : (s.take (min (m + 1) chunk)).length = min (m + 1) chunk := by
            rw [hlen]; omega
          have hin : m + 1 - (s.take (min (m + 1) chunk)).length
              ≤ (s.drop (s.take (min (m + 1) chunk)).length).length := by
            rw [hcl, List.length_drop]; omega
          rw [if_pos hin, if_pos hms, hcl]
          have htake : s.take (min (m + 1) chunk) ++
              (s.drop (min (m + 1) chunk)).take (m + 1 - min (m + 1) chunk)
              = s.take (m + 1) := by
            rw [← List.take_add]
            congr 1
            omega
          have hdrop : (s.drop (min (m + 1) chunk)).drop (m + 1 - min (m + 1) chunk)
              = s.drop (m + 1) := by
            rw [List.drop_drop]
            congr 1
            omega
          simp only [htake, hdrop]
        · have hin : ¬ (m + 1 - (s.take (min (m + 1) chunk)).length
              ≤ (s.drop (s.take (min (m + 1) chunk)).length).length) := by
            rw [hlen, List.length_drop]; omega
          rw [if_neg hin, if_neg hms]

/-- Closed form of `_recv_exact` itself. -/
theorem recvExact_closed (chunk : Nat) (hc : 1 ≤ chunk) (n : Nat) (s : List Nat) :
    recvExact chunk n s =
      if n ≤ s.length then .ok (s.take n, s.drop n) else .error connClosed :=
  recvExactGo_closed chunk hc n n s (Nat.le_refl n)

/-- Decoding inverts encoding for lengths below `2^32`. -/
theorem unpackBE4_packBE4 (n : Nat) (hn : n < 4294967296) :
    unpackBE4 (packBE4 n) = n := by
  simp only [packBE4, unpackBE4]
  omega

/-- Reading a frame written by `_send_msg` returns exactly the written body
and leaves the rest of the stream untouched. -/
theorem readFrame_roundtrip (chunk : Nat) (hc : 1 ≤ chunk)
    (B extra : List Nat) (hB : B.length < 4294967296) :
    readFrame chunk (sendMsg B ++ extra) = .ok (B, extra) := by
  have ht4 : (sendMsg B ++ extra).take 4 = packBE4 B.length := by
    rw [sendMsg, List.append_assoc,
      show (4 : Nat) = (packBE4 B.length).length from rfl, List.take_left]
  have hd4 : (sendMsg B ++ extra).drop 4 = B ++ extra := by
    rw [sendMsg, List.append_assoc,
      show (4 : Nat) = (packBE4 B.length).length from rfl, List.drop_left]
  have h4le : 4 ≤ (sendMsg B ++ extra).length := by
    simp [sendMsg, packBE4]
  simp only [readFrame, recvExact_closed chunk hc, if_pos h4le, ht4, hd4,
    unpackBE4_packBE4 B.length hB]
  rw [if_pos (by simp)]
  simp [List.take_left, List.drop_left]

/-- A stream closed before the 4 length bytes arrive fails with the
connection error. -/
theorem readFrame_closed_early (chunk : Nat) (hc : 1 ≤ chunk) (s : List Nat)
    (hs : s.length < 4) :
    readFrame chunk s = .error connClosed := by
  rw [readFrame, recvExact_closed chunk hc 4 s, if_neg (by omega)]

/-- A stream closed before the declared body length arrives fails with the
connection error. -/
theorem readFrame_truncated_body (chunk : Nat) (hc : 1 ≤ chunk)
    (L : Nat) (hL : L < 4294967296) (body : List Nat) (hb : body.length < L) :
    readFrame chunk (packBE4 L ++ body) = .error connClosed := by
  have ht4 : (packBE4 L ++ body).take 4 = packBE4 L := by
    rw [show (4 : Nat) = (packBE4 L).length from rfl, List.take_left]
  have hd4 : (packBE4 L ++ body).drop 4 = body := by
    rw [show (4 : Nat) = (packBE4 L).length from rfl, List.drop_left]
  have h4le : 4 ≤ (packBE4 L ++ body).length := by
    simp [packBE4]
  simp only [readFrame, recvExact_closed chunk hc, if_pos h4le, ht4, hd4,
    unpackBE4_packBE4 L hL]
  rw [if_neg (by omega)]

/-! ## Validator characterisation -/

/-- Success characterisation of `_validate_message_syntax` without an
expected step: an input is accepted exactly when it is a dict with a
`payload` key, a dict `route` with a list `steps` and an int `current`
(Python booleans being ints) within `[0, len(steps))`; the result is the
`{payload, route}` view.  Note the element types of `steps` are not
inspected. -/
theorem validateMessageSyntax_none_ok_iff (msg m' : JVal) :
    validateMessageSyntax msg none = .ok m' ↔
      ∃ fields rFields steps curV p,
        msg = .obj fields ∧
        fields.lookup "payload" = some p ∧
        fields.lookup "route" = some (.obj rFields) ∧
        rFields.lookup "steps" = some (.arr steps) ∧
        rFields.lookup "current" = some curV ∧
        pyIsInt curV = true ∧
        0 ≤ pyToInt curV ∧ pyToInt curV < (steps.length : Int) ∧
        m' = .obj [("payload", p), ("route", .obj rFields)] := by
  constructor
  · intro h
    cases msg with
    | null => simp [validateMessageSyntax, pyContains] at h
    | b v => simp [validateMessageSyntax, pyContains] at h
    | i v => simp [validateMessageSyntax, pyContains] at h
    | s v =>
      by_cases h1 : strContains v "payload" <;>
        by_cases h2 : strContains v "route" <;>
        simp [validateMessageSyntax, pyContains, pyGetItem, h1, h2] at h
    | arr items =>
      by_cases h1 : items.any (fun x => pyEq x (.s "payload")) <;>
        by_cases h2 : items.any (fun x => pyEq x (.s "route")) <;>
        simp [validateMessageSyntax, pyContains, pyGetItem, h1, h2] at h
    | obj fields =>
      rcases hp : fields.lookup "payload" with _ | p
      · simp [validateMessageSyntax, pyContains, hp] at h
      · rcases hr : fields.lookup "route" with _ | route
        · simp [validateMessageSyntax, pyContains, hp, hr] at h
        · cases route with
          | null => simp [validateMessageSyntax, pyContains, pyGetItem, hp, hr] at h
          | b v => simp [validateMessageSyntax, pyContains, pyGetItem, hp, hr] at h
          | i v => simp [validateMessageSyntax, pyContains, pyGetItem, hp, hr] at h
          | s v => simp [validateMessageSyntax, pyContains, pyGetItem, hp, hr] at h
          | arr its => simp [validateMessageSyntax, pyContains, pyGetItem, hp, hr] at h
          | obj rFields =>
            rcases hs : rFields.lookup "steps" with _ | stepsV
            · simp [validateMessageSyntax, pyContains, pyGetItem, hp, hr, hs] at h
            · cases stepsV with
              | null => simp [validateMessageSyntax, pyContains, pyGetItem, hp, hr, hs] at h
              | b v => simp [validateMessageSyntax, pyContains, pyGetItem, hp, hr, hs] at h
              | i v => simp [validateMessageSyntax, pyContains, pyGetItem, hp, hr, hs] at h
              | s v => simp [validateMessageSyntax, pyContains, pyGetItem, hp, hr, hs] at h
              | obj ofs => simp [validateMessageSyntax, pyContains, pyGetItem, hp, hr, hs] at h
              | arr steps =>
                rcases hcur : rFields.lookup "current" with _ | curV
                · simp [validateMessageSyntax, pyContains, pyGetItem, hp, hr, hs, hcur] at h
                · by_cases hint : pyIsInt curV = true
                  · by_cases hb : pyToInt curV < 0 ∨ (steps.length : Int) ≤ pyToInt curV
                    · simp [validateMessageSyntax, pyContains, pyGetItem, hp, hr, hs,
                        hcur, hint, hb] at h
                    · simp only [validateMessageSyntax, pyContains, pyGetItem,
                        validatedView, hp, hr, hs, hcur, hint, hb] at h
                      refine ⟨fields, rFields, steps, curV, p, rfl, hp, hr, hs, hcur,
                        hint, by omega, by omega, ?_⟩
                      simp at h
                      exact h.symm
                  · have hint' : pyIsInt curV = false := by
                      cases hpi : pyIsInt curV
                      · rfl
                      · exact absurd hpi hint
                    simp [validateMessageSyntax, pyContains, pyGetItem, hp, hr, hs,
                      hcur, hint'] at h
  · rintro ⟨fields, rFields, steps, curV, p, rfl, hp, hr, hs, hcur, hint, h0, hlen, rfl⟩
    have hb : ¬ (pyToInt curV < 0 ∨ (steps.length : Int) ≤ pyToInt curV) := by omega
    simp [validateMessageSyntax, pyContains, pyGetItem, validatedView,
      hp, hr, hs, hcur, hint, hb]

/-- On dict inputs every validation failure (without an expected step) is a
`ValueError` — exactly the class caught at line 228. -/
theorem validateMessageSyntax_none_obj_error (fields : List (String × JVal)) (e : PyExc)
    (h : validateMessageSyntax (.obj fields) none = .error e) : e.ty = "ValueError" := by
  rcases hp : fields.lookup "payload" with _ | p
  · simp [validateMessageSyntax, pyContains, hp] at h
    simp [← h, valueError]
  · rcases hr : fields.lookup "route" with _ | route
    · simp [validateMessageSyntax, pyContains, hp, hr] at h
      simp [← h, valueError]
    · cases route with
      | null =>
        simp [validateMessageSyntax, pyContains, pyGetItem, hp, hr] at h
        simp [← h, valueError]
      | b v =>
        simp [validateMessageSyntax, pyContains, pyGetItem, hp, hr] at h
        simp [← h, valueError]
      | i v =>
        simp [validateMessageSyntax, pyContains, pyGetItem, hp, hr] at h
        simp [← h, valueError]
      | s v =>
        simp [validateMessageSyntax, pyContains, pyGetItem, hp, hr] at h
        simp [← h, valueError]
      | arr its =>
        simp [validateMessageSyntax, pyContains, pyGetItem, hp, hr] at h
        simp [← h, valueError]
      | obj rFields =>
        rcases hs : rFields.lookup "steps" with _ | stepsV
        · simp [validateMessageSyntax, pyContains, pyGetItem, hp, hr, hs] at h
          simp [← h, valueError]
        · cases stepsV with
          | null =>
            simp [validateMessageSyntax, pyContains, pyGetItem, hp, hr, hs] at h
            simp [← h, valueError]
          | b v =>
            simp [validateMessageSyntax, pyContains, pyGetItem, hp, hr, hs] at h
            simp [← h, valueError]
          | i v =>
            simp [validateMessageSyntax, pyContains, pyGetItem, hp, hr, hs] at h
            simp [← h, valueError]
          | s v =>
            simp [validateMessageSyntax, pyContains, pyGetItem, hp, hr, hs] at h
            simp [← h, valueError]
          | obj ofs =>
            simp [validateMessageSyntax, pyContains, pyGetItem, hp, hr, hs] at h
            simp [← h, valueError]
          | arr steps =>
            rcases hcur : rFields.lookup "current" with _ | curV
            · simp [validateMessageSyntax, pyContains, pyGetItem, hp, hr, hs, hcur] at h
              simp [← h, valueError]
            · cases hpi : pyIsInt curV with
              | false =>
                simp [validateMessageSyntax, pyContains, pyGetItem, hp, hr, hs,
                  hcur, hpi] at h
                simp [← h, valueError]
              | true =>
                by_cases hb : pyToInt curV < 0 ∨ (steps.length : Int) ≤ pyToInt curV
                · simp [validateMessageSyntax, pyContains, pyGetItem, hp, hr, hs,
                    hcur, hpi, hb] at h
                  simp [← h, valueError]
                · simp [validateMessageSyntax, pyContains, pyGetItem, validatedView,
                    hp, hr, hs, hcur, hpi, hb] at h

/-- Validating an already-validated message returns it unchanged (schema
idempotence on the `{payload, route}` view). -/
theorem validateMessageSyntax_idem (msg m' : JVal)
    (h : validateMessageSyntax msg none = .ok m') :
    validateMessageSyntax m' none = .ok m' := by
  obtain ⟨fields, rFields, steps, curV, p, rfl, hp, hr, hs, hcur, hint, h0, hlen, rfl⟩ :=
    (validateMessageSyntax_none_ok_iff _ _).mp h
  exact (validateMessageSyntax_none_ok_iff _ _).mpr
    ⟨_, rFields, steps, curV, p, rfl, rfl, rfl, hs, hcur, hint, h0, hlen, rfl⟩

/-- On the validated `{payload, route}` view, `_get_current_step` succeeds
and returns `steps[current]`. -/
theorem getCurrentStep_validated (p : JVal) (rFields : List (String × JVal))
    (steps : List JVal) (curV : JVal)
    (hs : rFields.lookup "steps" = some (.arr steps))
    (hcur : rFields.lookup "current" = some curV)
    (hint : pyIsInt curV = true) (h0 : 0 ≤ pyToInt curV)
    (hlen : pyToInt curV < (steps.length : Int)) :
    getCurrentStep (.obj [("payload", p), ("route", .obj rFields)]) =
      .ok (steps.get ⟨(pyToInt curV).toNat, by omega⟩) := by
  have h1 : pyGetItem "route" (.obj [("payload", p), ("route", .obj rFields)])
      = .ok (.obj rFields) := rfl
  have h2 : pyGetItem "steps" (.obj rFields) = .ok (.arr steps) := by
    simp only [pyGetItem, hs]
  have h3 : pyGetItem "current" (.obj rFields) = .ok curV := by
    simp only [pyGetItem, hcur]
  have hn : (if pyToInt curV < 0 then pyToInt curV + (steps.length : Int)
      else pyToInt curV) = pyToInt curV := if_neg (by omega)
  have h4 : pyIndex (.arr steps) curV = .ok (steps.get ⟨(pyToInt curV).toNat, by omega⟩) := by
    simp only [pyIndex, hint, if_true]
    split
    · next hcond => exact absurd hcond (by omega)
    · next hcond => rw [dif_pos ⟨h0, hlen⟩]
  simp only [getCurrentStep, h1, h2, h3, h4]

/-- With an expected step, a shape-valid output whose `steps[current]`
differs from the expected value fails with the route-mismatch ValueError
naming both the expected and the actual step. -/
theorem validateMessageSyntax_some_mismatch (fields rFields : List (String × JVal))
    (steps : List JVal) (curV p exp actual : JVal)
    (hp : fields.lookup "payload" = some p)
    (hr : fields.lookup "route" = some (.obj rFields))
    (hs : rFields.lookup "steps" = some (.arr steps))
    (hcur : rFields.lookup "current" = some curV)
    (hint : pyIsInt curV = true) (h0 : 0 ≤ pyToInt curV)
    (hlen : pyToInt curV < (steps.length : Int))
    (hidx : pyIndex (.arr steps) curV = .ok actual)
    (hne : pyEq actual exp = false) :
    validateMessageSyntax (.obj fields) (some exp) =
      .error (valueError ("Route mismatch: input route points to \x27" ++ pyStr exp ++
        "\x27, but output route points to \x27" ++ pyStr actual ++
        "\x27. Actor cannot change its current position in the route.")) := by
  have hb : ¬ (pyToInt curV < 0 ∨ (steps.length : Int) ≤ pyToInt curV) := by omega
  simp [validateMessageSyntax, pyContains, pyGetItem, hp, hr, hs, hcur, hint, hb,
    hidx, hne]

/-- The output-validation loop raises the wrapped ValueError for the first
failing output, with the failing index and the total count in the
message. -/
theorem validateOutputs_firstFail (msg : JVal) (pre : List JVal) (o : JVal)
    (post : List JVal) (e : PyExc) (total : Nat)
    (hfail : outputCheck msg o = .error e) (hty : e.ty = "ValueError") :
    ∀ i, (∀ x ∈ pre, ∃ v, outputCheck msg x = .ok v) →
      validateOutputs msg (pre ++ o :: post) i total =
        .error (valueError ("Invalid output message[" ++ toString (i + pre.length) ++
          "/" ++ toString total ++ "]: " ++ e.msg)) := by
  induction pre with
  | nil =>
    intro i hpre
    simp only [List.nil_append, validateOutputs, hfail, hty]
    simp
  | cons x xs ih =>
    intro i hpre
    obtain ⟨v, hv⟩ := hpre x (by simp)
    simp only [List.cons_append, validateOutputs, hv, List.append_eq]
    rw [ih (i + 1) (fun y hy => hpre y (by simp [hy]))]
    rw [show i + 1 + xs.length = i + (x :: xs).length from by simp; omega]

/-- The payload-mode branch: the handler gets the payload, and every
normalised output is wrapped with the input route unchanged. -/
theorem processMessage_payload_eq (enableV : Bool) (u : JVal → Except PyExc JVal)
    (p r out : JVal) (hu : u p = .ok out) :
    processMessage "payload" enableV u (.obj [("payload", p), ("route", r)]) =
      .ok ((normaliseReturn out).map fun o => .obj [("payload", o), ("route", r)]) := by
  have h1 : pyGetItem "payload" (.obj [("payload", p), ("route", r)]) = .ok p := rfl
  have h2 : pyGetItem "route" (.obj [("payload", p), ("route", r)]) = .ok r := rfl
  simp only [processMessage, if_true, h1, hu]
  cases hn : normaliseReturn out with
  | nil => simp
  | cons a as => simp [h2]

/-- Message mode with validation disabled returns the normalised outputs. -/
theorem processMessage_message_noval (u : JVal → Except PyExc JVal) (msg out : JVal)
    (hu : u msg = .ok out) :
    processMessage "message" false u msg = .ok (normaliseReturn out) := by
  simp [processMessage, hu]

/-- Message mode with validation: all outputs valid. -/
theorem processMessage_message_valid_ok (u : JVal → Except PyExc JVal) (msg out : JVal)
    (hu : u msg = .ok out)
    (hval : validateOutputs msg (normaliseReturn out) 0 (normaliseReturn out).length
      = .ok ()) :
    processMessage "message" true u msg = .ok (normaliseReturn out) := by
  simp [processMessage, hu, hval]

/-- Message mode with validation: a failing output turns the whole result
into the single exception. -/
theorem processMessage_message_valid_error (u : JVal → Except PyExc JVal)
    (msg out : JVal) (e : PyExc) (hu : u msg = .ok out)
    (hval : validateOutputs msg (normaliseReturn out) 0 (normaliseReturn out).length
      = .error e) :
    processMessage "message" true u msg = .error e := by
  simp [processMessage, hu, hval]

/-- Message mode never returns a partial output list: a successful result
is exactly the normalised handler return. -/
theorem processMessage_message_ok_inv (enableV : Bool) (u : JVal → Except PyExc JVal)
    (msg : JVal) (l : List JVal) (h : processMessage "message" enableV u msg = .ok l) :
    ∃ out, u msg = .ok out ∧ l = normaliseReturn out := by
  simp only [processMessage] at h
  simp only [if_true] at h
  cases hu : u msg with
  | error e => rw [hu] at h; simp at h
  | ok out =>
    rw [hu] at h
    cases enableV with
    | false => simp at h; exact ⟨out, rfl, h.symm⟩
    | true =>
      simp only [] at h
      cases hv : validateOutputs msg (normaliseReturn out) 0 (normaliseReturn out).length with
      | error e => rw [hv] at h; simp at h
      | ok uu => rw [hv] at h; simp at h; exact ⟨out, rfl, h.symm⟩

/-- A parse failure of a caught exception class is answered with
`msg_parsing_error`. -/
theorem handleParsed_parse_caught (argType : String) (enableV : Bool)
    (u : JVal → Except PyExc JVal) (e : PyExc)
    (he : e.ty ∈ caughtParseTypes) :
    handleParsed argType enableV u (.error e) = .ok (errorResponse "msg_parsing_error" e) := by
  simp [handleParsed, he]

/-- A parse failure of an uncaught class escapes `_handle_request`. -/
theorem handleParsed_parse_uncaught (argType : String) (enableV : Bool)
    (u : JVal → Except PyExc JVal) (e : PyExc)
    (he : e.ty ∉ caughtParseTypes) :
    handleParsed argType enableV u (.error e) = .error e := by
  simp [handleParsed, he]

/-- An input-validation failure of a caught class (ValueError in
particular) is answered with `msg_parsing_error`. -/
theorem handleParsed_validate_caught (argType : String)
    (u : JVal → Except PyExc JVal) (msg : JVal) (e : PyExc)
    (hv : validateMessageSyntax msg none = .error e)
    (he : e.ty ∈ caughtParseTypes) :
    handleParsed argType true u (.ok msg) = .ok (errorResponse "msg_parsing_error" e) := by
  simp [handleParsed, hv, he]

/-- An input-validation failure of an uncaught class (TypeError) escapes
`_handle_request` uncaught. -/
theorem handleParsed_validate_uncaught (argType : String)
    (u : JVal → Except PyExc JVal) (msg : JVal) (e : PyExc)
    (hv : validateMessageSyntax msg none = .error e)
    (he : e.ty ∉ caughtParseTypes) :
    handleParsed argType true u (.ok msg) = .error e := by
  simp [handleParsed, hv, he]

/-- A processing exception is answered with `processing_error`. -/
theorem handleParsed_processing_error (argType : String)
    (u : JVal → Except PyExc JVal) (msg m' : JVal) (e : PyExc)
    (hv : validateMessageSyntax msg none = .ok m')
    (hp : processMessage argType true u m' = .error e) :
    handleParsed argType true u (.ok msg) = .ok (errorResponse "processing_error" e) := by
  simp [handleParsed, hv, hp]

/-- A successful processing run is answered with the output list itself. -/
theorem handleParsed_success (argType : String)
    (u : JVal → Except PyExc JVal) (msg m' : JVal) (outs : List JVal)
    (hv : validateMessageSyntax msg none = .ok m')
    (hp : processMessage argType true u m' = .ok outs) :
    handleParsed argType true u (.ok msg) = .ok outs := by
  simp [handleParsed, hv, hp]

/-! ## Claim C3 -/

/-- C3: return normalisation.  For every valid input envelope, a handler
return of `None` yields zero outputs, a list/tuple yields its elements in
order, any other single value yields exactly one output; and in payload
mode each output is wrapped as `{payload: out, route: input.route}` with
the input route unchanged. -/
theorem c3_normalisation :
    (∀ (enableV : Bool) (u : JVal → Except PyExc JVal) (p r out : JVal),
      u p = .ok out →
      processMessage "payload" enableV u (.obj [("payload", p), ("route", r)]) =
        .ok ((normaliseReturn out).map fun o => .obj [("payload", o), ("route", r)])) ∧
    normaliseReturn .null = [] ∧
    (∀ xs, normaliseReturn (.arr xs) = xs) ∧
    (∀ v, v ≠ .null → (∀ xs, v ≠ .arr xs) → normaliseReturn v = [v]) := by
  refine ⟨processMessage_payload_eq, rfl, fun xs => rfl, ?_⟩
  intro v h0 h1
  cases v with
  | null => exact absurd rfl h0
  | arr xs => exact absurd rfl (h1 xs)
  | b x => rfl
  | i x => rfl
  | s x => rfl
  | obj fs => rfl

/-- C3 witness: a concrete fan-out of two payloads in payload mode, and a
single non-list value. -/
theorem c3_normalisation_witness :
    processMessage "payload" true (fun _ => .ok (.arr [.i 1, .i 2]))
      (.obj [("payload", .null),
             ("route", .obj [("steps", .arr [.s "a"]), ("current", .i 0)])]) =
      .ok [.obj [("payload", .i 1),
                 ("route", .obj [("steps", .arr [.s "a"]), ("current", .i 0)])],
           .obj [("payload", .i 2),
                 ("route", .obj [("steps", .arr [.s "a"]), ("current", .i 0)])]] ∧
    normaliseReturn (.i 7) = [.i 7] :=
  ⟨c3_normalisation.1 true (fun _ => .ok (.arr [.i 1, .i 2])) .null
      (.obj [("steps", .arr [.s "a"]), ("current", .i 0)]) (.arr [.i 1, .i 2]) rfl,
   c3_normalisation.2.2.2 (.i 7) (fun h => JVal.noConfusion h)
      (fun _ h => JVal.noConfusion h)⟩

/-! ## Claim C6 -/

/-- C6: framing round-trip.  For every byte string `B` with
`len(B) < 2^32`, reading one frame from `write(B)` yields exactly `B`
(and consumes nothing further); and the read fails with the connection
error — answered as a `connection_error` envelope — if the stream is
closed before the 4 length bytes or before the `L` declared body bytes
arrive. -/
theorem c6_framing_roundtrip :
    (∀ chunk (B extra : List Nat), 1 ≤ chunk → B.length < 4294967296 →
      readFrame chunk (sendMsg B ++ extra) = .ok (B, extra)) ∧
    (∀ chunk (s : List Nat), 1 ≤ chunk → s.length < 4 →
      readFrame chunk s = .error connClosed ∧
      ∀ argType enableV parse u,
        handleRequest chunk argType enableV parse u s
          = .ok (errorResponse "connection_error" connClosed)) ∧
    (∀ chunk L (body : List Nat), 1 ≤ chunk → L < 4294967296 → body.length < L →
      readFrame chunk (packBE4 L ++ body) = .error connClosed) := by
  refine ⟨fun chunk B extra hc hB => readFrame_roundtrip chunk hc B extra hB,
    fun chunk s hc hs => ⟨readFrame_closed_early chunk hc s hs, ?_⟩,
    fun chunk L body hc hL hb => readFrame_truncated_body chunk hc L hL body hb⟩
  intro argType enableV parse u
  simp [handleRequest, readFrame_closed_early chunk hc s hs]

/-- C6 witness: a five-byte body read with a two-byte chunk size plus
trailing stream data; a stream closed inside the length prefix; a frame
declaring three body bytes but delivering one. -/
theorem c6_framing_roundtrip_witness :
    readFrame 2 (sendMsg [1, 2, 3, 4, 5] ++ [9]) = .ok ([1, 2, 3, 4, 5], [9]) ∧
    readFrame 2 [0, 0] = .error connClosed ∧
    readFrame 2 (packBE4 3 ++ [7]) = .error connClosed :=
  ⟨c6_framing_roundtrip.1 2 [1, 2, 3, 4, 5] [9] (by omega) (by simp),
   (c6_framing_roundtrip.2.1 2 [0, 0] (by omega) (by simp)).1,
   c6_framing_roundtrip.2.2 2 3 [7] (by omega) (by omega) (by simp)⟩

/-! ## Claim C8 -/

/-- C8: a handler name rejected by the regular expression
`^[A-Za-z_][A-Za-z0-9_]*(\.[A-Za-z_][A-Za-z0-9_]*)+$` makes
`_load_function` call `sys.exit(1)` — a non-zero exit — and
`handle_requests` therefore never reaches `_setup_socket`, so no listening
socket is created and no connection accepted. -/
theorem c8_invalid_handler_exits (handler : String)
    (importOk : String → String → Bool)
    (h : validHandlerName handler = false) :
    loadFunction "payload" handler importOk = .exited 1 ∧
    loadFunction "message" handler importOk = .exited 1 ∧
    startupReachesSocket "payload" handler importOk = false ∧
    startupReachesSocket "message" handler importOk = false := by
  by_cases h0 : handler = ""
  · subst h0
    refine ⟨by simp [loadFunction], by simp [loadFunction], ?_, ?_⟩ <;>
      simp [startupReachesSocket, loadFunction]
  · refine ⟨by simp [loadFunction, h0, h], by simp [loadFunction, h0, h], ?_, ?_⟩ <;>
      simp [startupReachesSocket, loadFunction, h0, h]

/-- C8 witness: the example `"../etc/passwd"` given in the spec and a
dotless name both fail the pattern and exit before socket creation, even
when the import function itself would have succeeded.  A plain dotted
name passes the pattern, as does one with a single trailing newline
(Python `$` matches before it), so neither is in the scope of the
theorem. -/
theorem c8_invalid_handler_exits_witness :
    validHandlerName "../etc/passwd" = false ∧
    validHandlerName "foobar" = false ∧
    validHandlerName "foo.bar" = true ∧
    validHandlerName "foo.bar\n" = true ∧
    loadFunction "payload" "../etc/passwd" (fun _ _ => true) = .exited 1 ∧
    startupReachesSocket "payload" "../etc/passwd" (fun _ _ => true) = false ∧
    startupReachesSocket "message" "foobar" (fun _ _ => true) = false :=
  ⟨rfl, rfl, rfl, rfl,
   (c8_invalid_handler_exits "../etc/passwd" (fun _ _ => true) rfl).1,
   (c8_invalid_handler_exits "../etc/passwd" (fun _ _ => true) rfl).2.2.1,
   (c8_invalid_handler_exits "foobar" (fun _ _ => true) rfl).2.2.2⟩

/-! ## Claim C9 -/

/-- C9: a frame with declared length 0 is accepted by the codec — the
empty body is read without a connection error — and the empty byte string
is handed to the JSON parser, whose decode failure (a JSONDecodeError)
makes the runtime answer `msg_parsing_error`, not `connection_error`. -/
theorem c9_zero_length_frame (chunk : Nat) (argType : String) (enableV : Bool)
    (parse : List Nat → Except PyExc JVal) (u : JVal → Except PyExc JVal)
    (rest : List Nat) (e : PyExc)
    (hc : 1 ≤ chunk) (hp : parse [] = .error e) (he : e.ty = "JSONDecodeError") :
    sendMsg [] = [0, 0, 0, 0] ∧
    readFrame chunk (sendMsg [] ++ rest) = .ok ([], rest) ∧
    handleRequest chunk argType enableV parse u (sendMsg [])
      = .ok (errorResponse "msg_parsing_error" e) := by
  refine ⟨rfl, readFrame_roundtrip chunk hc [] rest (by simp), ?_⟩
  have hr : readFrame chunk (sendMsg []) = .ok ([], []) := by
    have := readFrame_roundtrip chunk hc [] [] (by simp)
    simpa using this
  rw [handleRequest, hr]
  show handleParsed argType enableV u (parse []) = _
  rw [hp]
  exact handleParsed_parse_caught argType enableV u e (by simp [caughtParseTypes, he])

/-- C9 witness: the zero-length frame `[0,0,0,0]` with a concrete parser
stub behaving like `json.loads` on empty input. -/
theorem c9_zero_length_frame_witness :
    handleRequest 65536 "payload" true
      (fun _ => .error { ty := "JSONDecodeError",
                         msg := "Expecting value: line 1 column 1 (char 0)", tb := "" })
      (fun v => .ok v) (sendMsg [])
      = .ok (errorResponse "msg_parsing_error"
          { ty := "JSONDecodeError",
            msg := "Expecting value: line 1 column 1 (char 0)", tb := "" }) :=
  (c9_zero_length_frame 65536 "payload" true
    (fun _ => .error { ty := "JSONDecodeError",
                       msg := "Expecting value: line 1 column 1 (char 0)", tb := "" })
    (fun v => .ok v) [] _ (by omega) rfl rfl).2.2

/-! ## Claim C10 -/

/-- C10: whenever input validation succeeds, the validated message is the
`{payload, route}` view whose route satisfies
`0 ≤ current < len(steps)`; hence `steps` is non-empty and
`_get_current_step` — the `steps[current]` indexing used to compute the
expected output step — succeeds on it; and no envelope whose
`route.steps` is the empty list is ever accepted. -/
theorem c10_validated_bounds :
    (∀ msg m', validateMessageSyntax msg none = .ok m' →
      ∃ p rFields steps curV,
        m' = .obj [("payload", p), ("route", .obj rFields)] ∧
        rFields.lookup "steps" = some (.arr steps) ∧
        rFields.lookup "current" = some curV ∧
        0 ≤ pyToInt curV ∧ pyToInt curV < (steps.length : Int) ∧
        steps ≠ [] ∧
        ∃ stepVal, getCurrentStep m' = .ok stepVal) ∧
    (∀ (fields rFields : List (String × JVal)) m',
      fields.lookup "route" = some (.obj rFields) →
      rFields.lookup "steps" = some (.arr []) →
      validateMessageSyntax (.obj fields) none ≠ .ok m') := by
  constructor
  · intro msg m' h
    obtain ⟨fields, rFields, steps, curV, p, rfl, hp, hr, hs, hcur, hint, h0, hlen, rfl⟩ :=
      (validateMessageSyntax_none_ok_iff _ _).mp h
    refine ⟨p, rFields, steps, curV, rfl, hs, hcur, h0, hlen, ?_, ?_⟩
    · intro hnil
      rw [hnil] at hlen
      simp at hlen
      omega
    · exact ⟨_, getCurrentStep_validated p rFields steps curV hs hcur hint h0 hlen⟩
  · intro fields rFields m' hr hs h
    obtain ⟨fields', rFields', steps', curV', p', heq, hp', hr', hs', hcur', hint', h0', hlen', _⟩ :=
      (validateMessageSyntax_none_ok_iff _ _).mp h
    obtain rfl : fields = fields' := by
      injection heq
    rw [hr] at hr'
    obtain rfl : rFields = rFields' := by
      injection hr' with hx
      injection hx
    rw [hs] at hs'
    obtain hnil : ([] : List JVal) = steps' := by
      injection hs' with hx
      injection hx
    rw [← hnil] at hlen'
    simp at hlen'
    omega

/-- C10 witness: a concrete accepted envelope yields in-bounds indexing,
and the concrete empty-steps envelope is rejected. -/
theorem c10_validated_bounds_witness :
    (∃ p rFields steps curV,
      (JVal.obj [("payload", .i 3),
                 ("route", .obj [("steps", .arr [.s "a", .s "b"]), ("current", .i 1)])])
        = .obj [("payload", p), ("route", .obj rFields)] ∧
      rFields.lookup "steps" = some (.arr steps) ∧
      rFields.lookup "current" = some curV ∧
      0 ≤ pyToInt curV ∧ pyToInt curV < (steps.length : Int) ∧
      steps ≠ [] ∧
      ∃ stepVal, getCurrentStep (.obj [("payload", .i 3),
        ("route", .obj [("steps", .arr [.s "a", .s "b"]), ("current", .i 1)])])
          = .ok stepVal) ∧
    ∀ m', validateMessageSyntax
      (.obj [("payload", .null),
             ("route", .obj [("steps", .arr []), ("current", .i 0)])]) none ≠ .ok m' :=
  ⟨c10_validated_bounds.1
      (.obj [("payload", .i 3),
             ("route", .obj [("steps", .arr [.s "a", .s "b"]), ("current", .i 1)])])
      (.obj [("payload", .i 3),
             ("route", .obj [("steps", .arr [.s "a", .s "b"]), ("current", .i 1)])])
      rfl,
   fun m' => c10_validated_bounds.2
      [("payload", .null), ("route", .obj [("steps", .arr []), ("current", .i 0)])]
      [("steps", .arr []), ("current", .i 0)] m' rfl rfl⟩

/-! ## Claim C4 -/

/-- Declarative acceptance condition, written after the amended claim's
words (spec side of the refinement): a dict with `payload` present, a
dict `route`, a list `steps` (element types unchecked), an integer
`current` (Python booleans qualifying), and `0 ≤ current < len(steps)`. -/
def acceptsEnvelopeSpec : JVal → Bool
  | .obj fields =>
    (fields.lookup "payload").isSome &&
    (match fields.lookup "route" with
     | some (.obj rFields) =>
       (match rFields.lookup "steps", rFields.lookup "current" with
        | some (.arr steps), some curV =>
          pyIsInt curV && decide (0 ≤ pyToInt curV) &&
            decide (pyToInt curV < (steps.length : Int))
        | _, _ => false)
     | _ => false)
  | _ => false

/-- C4 counterexample: the claim requires `route.steps` to be a list of
strings and `route.current` to be an integer; the code accepts an
envelope whose `steps` contains the number 42, and one whose `current` is
the boolean `true`, answering both with a success envelope rather than
`msg_parsing_error`. -/
theorem c4_counterexample :
    handleParsed "payload" true (fun v => .ok v)
      (.ok (.obj [("payload", .i 7),
                  ("route", .obj [("steps", .arr [.i 42]), ("current", .i 0)])]))
      = .ok [.obj [("payload", .i 7),
                   ("route", .obj [("steps", .arr [.i 42]), ("current", .i 0)])]] ∧
    handleParsed "payload" true (fun v => .ok v)
      (.ok (.obj [("payload", .i 7),
                  ("route", .obj [("steps", .arr [.s "a", .s "b"]),
                                  ("current", .b true)])]))
      = .ok [.obj [("payload", .i 7),
                   ("route", .obj [("steps", .arr [.s "a", .s "b"]),
                                   ("current", .b true)])]] :=
  ⟨rfl, rfl⟩

/-- C4 (amended): input validation accepts an envelope iff `payload` is
present, `route` is a dict, `route.steps` is a list (element types are
not checked), `route.current` is an integer in the host-language sense
(booleans qualify, coerced to 0/1), and `0 ≤ current < len(steps)`; and
on dict inputs every violation raises a ValueError which the runtime
answers with `msg_parsing_error`. -/
theorem c4_validation_iff (msg : JVal) :
    ((∃ m', validateMessageSyntax msg none = .ok m') ↔ acceptsEnvelopeSpec msg = true) ∧
    (∀ fields e, msg = .obj fields →
      validateMessageSyntax msg none = .error e →
      e.ty = "ValueError" ∧
      ∀ argType u, handleParsed argType true u (.ok msg)
        = .ok (errorResponse "msg_parsing_error" e)) := by
  constructor
  · constructor
    · rintro ⟨m', h⟩
      obtain ⟨fields, rFields, steps, curV, p, rfl, hp, hr, hs, hcur, hint, h0, hlen, rfl⟩ :=
        (validateMessageSyntax_none_ok_iff _ _).mp h
      simp [acceptsEnvelopeSpec, hp, hr, hs, hcur, hint, h0, hlen]
    · intro hacc
      cases msg with
      | null => simp [acceptsEnvelopeSpec] at hacc
      | b v => simp [acceptsEnvelopeSpec] at hacc
      | i v => simp [acceptsEnvelopeSpec] at hacc
      | s v => simp [acceptsEnvelopeSpec] at hacc
      | arr items => simp [acceptsEnvelopeSpec] at hacc
      | obj fields =>
        rcases hp : fields.lookup "payload" with _ | p
        · simp [acceptsEnvelopeSpec, hp] at hacc
        · rcases hr : fields.lookup "route" with _ | route
          · simp [acceptsEnvelopeSpec, hp, hr] at hacc
          · cases route with
            | null => simp [acceptsEnvelopeSpec, hp, hr] at hacc
            | b v => simp [acceptsEnvelopeSpec, hp, hr] at hacc
            | i v => simp [acceptsEnvelopeSpec, hp, hr] at hacc
            | s v => simp [acceptsEnvelopeSpec, hp, hr] at hacc
            | arr its => simp [acceptsEnvelopeSpec, hp, hr] at hacc
            | obj rFields =>
              rcases hs : rFields.lookup "steps" with _ | stepsV
              · simp [acceptsEnvelopeSpec, hp, hr, hs] at hacc
              · cases stepsV with
                | null => simp [acceptsEnvelopeSpec, hp, hr, hs] at hacc
                | b v => simp [acceptsEnvelopeSpec, hp, hr, hs] at hacc
                | i v => simp [acceptsEnvelopeSpec, hp, hr, hs] at hacc
                | s v => simp [acceptsEnvelopeSpec, hp, hr, hs] at hacc
                | obj ofs => simp [acceptsEnvelopeSpec, hp, hr, hs] at hacc
                | arr steps =>
                  rcases hcur : rFields.lookup "current" with _ | curV
                  · simp [acceptsEnvelopeSpec, hp, hr, hs, hcur] at hacc
                  · simp only [acceptsEnvelopeSpec, hp, hr, hs, hcur,
                      Option.isSome_some, Bool.true_and, Bool.and_eq_true,
                      decide_eq_true_eq] at hacc
                    obtain ⟨⟨hint, h0⟩, hlen⟩ := hacc
                    exact ⟨_, (validateMessageSyntax_none_ok_iff _ _).mpr
                      ⟨fields, rFields, steps, curV, p, rfl, hp, hr, hs, hcur,
                       hint, h0, hlen, rfl⟩⟩
  · rintro fields e rfl hv
    have hty := validateMessageSyntax_none_obj_error fields e hv
    exact ⟨hty, fun argType u =>
      handleParsed_validate_caught argType u _ e hv (by simp [caughtParseTypes, hty])⟩

/-- C4 witness: the iff applied to a concrete accepted envelope, and the
failure branch applied to the empty dict, which is answered with
`msg_parsing_error` for the missing `payload` field. -/
theorem c4_validation_iff_witness :
    acceptsEnvelopeSpec
      (.obj [("payload", .null),
             ("route", .obj [("steps", .arr [.s "a"]), ("current", .i 0)])]) = true ∧
    handleParsed "payload" true (fun v => .ok v) (.ok (.obj []))
      = .ok (errorResponse "msg_parsing_error"
          (valueError "Missing required field \x27payload\x27 in message")) :=
  ⟨(c4_validation_iff _).1.mp ⟨_, rfl⟩,
   ((c4_validation_iff (.obj [])).2 [] (valueError "Missing required field \x27payload\x27 in message")
      rfl rfl).2 "payload" (fun v => .ok v)⟩

/-! ## Claim C5 -/

/-- C5 counterexample: in message mode with validation enabled, an
envelope carrying a top-level `job_id` is stripped to its
`{payload, route}` view before the handler runs — the echo handler
returns the stripped dict, which differs from the wire envelope, so the
handler did not receive the full envelope. -/
theorem c5_counterexample :
    handleParsed "message" true (fun m => .ok m)
      (.ok (.obj [("payload", .null),
                  ("route", .obj [("steps", .arr [.s "a"]), ("current", .i 0)]),
                  ("job_id", .s "J")]))
      = .ok [.obj [("payload", .null),
                   ("route", .obj [("steps", .arr [.s "a"]), ("current", .i 0)])]] ∧
    (JVal.obj [("payload", .null),
               ("route", .obj [("steps", .arr [.s "a"]), ("current", .i 0)])])
      ≠ .obj [("payload", .null),
              ("route", .obj [("steps", .arr [.s "a"]), ("current", .i 0)]),
              ("job_id", .s "J")] :=
  ⟨rfl, by simp⟩

/-- C5 (amended): in message mode with validation enabled the handler is
invoked with the validated `{payload, route}` projection of the wire
envelope — extra top-level fields such as `job_id` are stripped, so the
response is the same as if the projection itself had been received; only
with validation disabled does the handler see the full envelope (the echo
handler then returns it intact). -/
theorem c5_stripped_envelope :
    (∀ (u : JVal → Except PyExc JVal) msg m',
      validateMessageSyntax msg none = .ok m' →
      (∃ p r, pyGetItem "payload" msg = .ok p ∧ pyGetItem "route" msg = .ok r ∧
        m' = .obj [("payload", p), ("route", r)]) ∧
      handleParsed "message" true u (.ok msg) = handleParsed "message" true u (.ok m')) ∧
    (∀ fields, handleParsed "message" false (fun m => .ok m) (.ok (.obj fields))
      = .ok [.obj fields]) := by
  constructor
  · intro u msg m' hv
    obtain ⟨fields, rFields, steps, curV, p, rfl, hp, hr, hs, hcur, hint, h0, hlen, hm'⟩ :=
      (validateMessageSyntax_none_ok_iff _ _).mp hv
    constructor
    · exact ⟨p, .obj rFields, by simp [pyGetItem, hp], by simp [pyGetItem, hr], hm'⟩
    · have hidem := validateMessageSyntax_idem _ _ hv
      simp only [handleParsed, hv, hidem]
      rfl
  · intro fields
    simp [handleParsed, processMessage, normaliseReturn]

/-- C5 witness: the strip lemma applied to a concrete envelope carrying
`job_id`, and the validation-disabled echo on the same envelope keeping
the full envelope intact. -/
theorem c5_stripped_envelope_witness :
    (∃ p r, pyGetItem "payload"
        (.obj [("payload", .i 1),
               ("route", .obj [("steps", .arr [.s "a"]), ("current", .i 0)]),
               ("job_id", .s "J")]) = .ok p ∧
      pyGetItem "route"
        (.obj [("payload", .i 1),
               ("route", .obj [("steps", .arr [.s "a"]), ("current", .i 0)]),
               ("job_id", .s "J")]) = .ok r ∧
      (JVal.obj [("payload", .i 1),
                 ("route", .obj [("steps", .arr [.s "a"]), ("current", .i 0)])])
        = .obj [("payload", p), ("route", r)]) ∧
    handleParsed "message" false (fun m => .ok m)
      (.ok (.obj [("payload", .i 1),
                  ("route", .obj [("steps", .arr [.s "a"]), ("current", .i 0)]),
                  ("job_id", .s "J")]))
      = .ok [.obj [("payload", .i 1),
                   ("route", .obj [("steps", .arr [.s "a"]), ("current", .i 0)]),
                   ("job_id", .s "J")]] :=
  ⟨(c5_stripped_envelope.1 (fun m => .ok m)
      (.obj [("payload", .i 1),
             ("route", .obj [("steps", .arr [.s "a"]), ("current", .i 0)]),
             ("job_id", .s "J")])
      (.obj [("payload", .i 1),
             ("route", .obj [("steps", .arr [.s "a"]), ("current", .i 0)])])
      rfl).1,
   c5_stripped_envelope.2
      [("payload", .i 1),
       ("route", .obj [("steps", .arr [.s "a"]), ("current", .i 0)]),
       ("job_id", .s "J")]⟩

/-! ## Claim C1 -/

/-- C1 counterexample: a frame whose body is the valid JSON text `5`
(byte 0x35) passes `json.loads`, but the membership test
`"payload" not in 5` inside `_validate_message_syntax` raises a
`TypeError`, which is not in the exception tuple caught at line 228 — the
exception escapes `_handle_request` (the `.error` result), so the runtime
sends no structured response at all for this connection, contradicting
the claim that every input-validation failure is answered with
`msg_parsing_error`. -/
theorem c1_counterexample :
    handleRequest 65536 "payload" true (fun _ => .ok (.i 5)) (fun v => .ok v)
      (sendMsg [53])
      = .error { ty := "TypeError",
                 msg := "argument of type \x27int\x27 is not iterable", tb := "" } :=
  rfl

/-- C1 (amended): the request handler answers a frame-read failure with a
one-element `connection_error` array, a JSON-decode failure (a caught
exception class) with a one-element `msg_parsing_error` array, an
input-validation failure raising a ValueError — every dict envelope
violation — with a one-element `msg_parsing_error` array, a handler
exception with a one-element `processing_error` array whose details
carry message, type and formatted traceback, and success with the
(possibly empty) output array; only a validation failure raising an
uncaught class (a non-dict JSON top level) escapes instead. -/
theorem c1_structured_responses :
    (∀ chunk argType enableV parse u (s : List Nat) e,
      readFrame chunk s = .error e →
      handleRequest chunk argType enableV parse u s
        = .ok (errorResponse "connection_error" e)) ∧
    (∀ chunk argType enableV parse u (s data rest : List Nat) e,
      readFrame chunk s = .ok (data, rest) →
      parse data = .error e → e.ty ∈ caughtParseTypes →
      handleRequest chunk argType enableV parse u s
        = .ok (errorResponse "msg_parsing_error" e)) ∧
    (∀ argType (u : JVal → Except PyExc JVal) msg e,
      validateMessageSyntax msg none = .error e → e.ty = "ValueError" →
      handleParsed argType true u (.ok msg)
        = .ok (errorResponse "msg_parsing_error" e)) ∧
    (∀ argType (u : JVal → Except PyExc JVal) msg m' e,
      validateMessageSyntax msg none = .ok m' →
      processMessage argType true u m' = .error e →
      handleParsed argType true u (.ok msg)
        = .ok (errorResponse "processing_error" e)) ∧
    (∀ argType (u : JVal → Except PyExc JVal) msg m' outs,
      validateMessageSyntax msg none = .ok m' →
      processMessage argType true u m' = .ok outs →
      handleParsed argType true u (.ok msg) = .ok outs) ∧
    (∀ code e, errorResponse code e =
      [.obj [("error", .s code),
             ("details", .obj [("message", .s e.msg), ("type", .s e.ty),
                               ("traceback", .s e.tb)])]]) := by
  refine ⟨?_, ?_, ?_, ?_, ?_, fun code e => rfl⟩
  · intro chunk argType enableV parse u s e hre
    simp [handleRequest, hre]
  · intro chunk argType enableV parse u s data rest e hrf hp he
    rw [handleRequest, hrf]
    show handleParsed argType enableV u (parse data) = _
    rw [hp]
    exact handleParsed_parse_caught argType enableV u e he
  · intro argType u msg e hv hty
    exact handleParsed_validate_caught argType u msg e hv (by simp [caughtParseTypes, hty])
  · intro argType u msg m' e hv hp
    exact handleParsed_processing_error argType u msg m' e hv hp
  · intro argType u msg m' outs hv hp
    exact handleParsed_success argType u msg m' outs hv hp

/-- C1 witness: each branch at a concrete input — closed stream, bad
JSON, dict missing `payload`, a raising handler, and a successful echo. -/
theorem c1_structured_responses_witness :
    handleRequest 65536 "payload" true (fun _ => .ok .null) (fun v => .ok v) []
      = .ok (errorResponse "connection_error" connClosed) ∧
    handleRequest 65536 "payload" true
      (fun _ => .error { ty := "JSONDecodeError", msg := "Expecting value", tb := "" })
      (fun v => .ok v) (sendMsg [123])
      = .ok (errorResponse "msg_parsing_error"
          { ty := "JSONDecodeError", msg := "Expecting value", tb := "" }) ∧
    handleParsed "payload" true (fun v => .ok v) (.ok (.obj []))
      = .ok (errorResponse "msg_parsing_error"
          (valueError "Missing required field \x27payload\x27 in message")) ∧
    handleParsed "payload" true
      (fun _ => .error { ty := "ValueError", msg := "boom", tb := "tb" })
      (.ok (.obj [("payload", .null),
                  ("route", .obj [("steps", .arr [.s "a"]), ("current", .i 0)])]))
      = .ok (errorResponse "processing_error"
          { ty := "ValueError", msg := "boom", tb := "tb" }) ∧
    handleParsed "payload" true (fun _ => .ok (.i 9))
      (.ok (.obj [("payload", .null),
                  ("route", .obj [("steps", .arr [.s "a"]), ("current", .i 0)])]))
      = .ok [.obj [("payload", .i 9),
                   ("route", .obj [("steps", .arr [.s "a"]), ("current", .i 0)])]] :=
  ⟨c1_structured_responses.1 65536 "payload" true (fun _ => .ok .null) (fun v => .ok v)
      [] connClosed rfl,
   c1_structured_responses.2.1 65536 "payload" true
      (fun _ => .error { ty := "JSONDecodeError", msg := "Expecting value", tb := "" })
      (fun v => .ok v) (sendMsg [123]) [123] [] _ rfl rfl (by decide),
   c1_structured_responses.2.2.1 "payload" (fun v => .ok v) (.obj []) _ rfl rfl,
   c1_structured_responses.2.2.2.1 "payload"
      (fun _ => .error { ty := "ValueError", msg := "boom", tb := "tb" })
      (.obj [("payload", .null),
             ("route", .obj [("steps", .arr [.s "a"]), ("current", .i 0)])])
      (.obj [("payload", .null),
             ("route", .obj [("steps", .arr [.s "a"]), ("current", .i 0)])])
      _ rfl rfl,
   c1_structured_responses.2.2.2.2.1 "payload" (fun _ => .ok (.i 9))
      (.obj [("payload", .null),
             ("route", .obj [("steps", .arr [.s "a"]), ("current", .i 0)])])
      (.obj [("payload", .null),
             ("route", .obj [("steps", .arr [.s "a"]), ("current", .i 0)])])
      [.obj [("payload", .i 9),
             ("route", .obj [("steps", .arr [.s "a"]), ("current", .i 0)])]]
      rfl rfl⟩

/-! ## Claim C2 -/

/-- C2 counterexample: in message mode with validation on, a handler
output list containing the integer 5 fails output validation, but the
failure is a `TypeError` from the membership test, which the
`except ValueError` clause does not wrap: the response is a single
`processing_error` whose message is the bare TypeError text, not of the
claimed form `Invalid output message[i/N]: <reason>`. -/
theorem c2_counterexample :
    handleParsed "message" true (fun _ => .ok (.arr [.i 5]))
      (.ok (.obj [("payload", .null),
                  ("route", .obj [("steps", .arr [.s "a"]), ("current", .i 0)])]))
      = .ok (errorResponse "processing_error"
          { ty := "TypeError",
            msg := "argument of type \x27int\x27 is not iterable", tb := "" }) ∧
    List.isPrefixOf "Invalid output message[".toList
      "argument of type \x27int\x27 is not iterable".toList = false :=
  ⟨rfl, by decide⟩

/-- C2 (amended): in message mode with validation enabled, when the first
failing output of the handler output list raises a ValueError (as every dict
output with missing or invalid fields and every route mismatch does), the
entire response is replaced by a single `processing_error` whose message
is exactly `Invalid output message[i/N]: <reason>` for that first failing
index; a route mismatch produces the ValueError whose reason names both
the expected step (the input `steps[current]`) and the actual step; and no
partial list of outputs is ever returned — a successful response is the
whole normalised output list.  (Non-dict outputs instead raise a
TypeError that is reported as a `processing_error` without the indexed
message.) -/
theorem c2_output_validation :
    (∀ (u : JVal → Except PyExc JVal) msg m' out (pre : List JVal) o
        (post : List JVal) e,
      validateMessageSyntax msg none = .ok m' →
      u m' = .ok out →
      normaliseReturn out = pre ++ o :: post →
      (∀ x ∈ pre, ∃ v, outputCheck m' x = .ok v) →
      outputCheck m' o = .error e → e.ty = "ValueError" →
      handleParsed "message" true u (.ok msg) =
        .ok (errorResponse "processing_error"
          (valueError ("Invalid output message[" ++ toString pre.length ++ "/" ++
            toString (pre.length + (post.length + 1)) ++ "]: " ++ e.msg)))) ∧
    (∀ (m' exp : JVal) (fields rFields : List (String × JVal)) (steps : List JVal)
        (curV p actual : JVal),
      getCurrentStep m' = .ok exp →
      fields.lookup "payload" = some p →
      fields.lookup "route" = some (.obj rFields) →
      rFields.lookup "steps" = some (.arr steps) →
      rFields.lookup "current" = some curV →
      pyIsInt curV = true → 0 ≤ pyToInt curV →
      pyToInt curV < (steps.length : Int) →
      pyIndex (.arr steps) curV = .ok actual →
      pyEq actual exp = false →
      outputCheck m' (.obj fields) =
        .error (valueError ("Route mismatch: input route points to \x27" ++
          pyStr exp ++ "\x27, but output route points to \x27" ++ pyStr actual ++
          "\x27. Actor cannot change its current position in the route."))) ∧
    (∀ (u : JVal → Except PyExc JVal) msg m' l,
      validateMessageSyntax msg none = .ok m' →
      handleParsed "message" true u (.ok msg) = .ok l →
      (∃ out, u m' = .ok out ∧ l = normaliseReturn out) ∨
      ∃ e, l = errorResponse "processing_error" e) := by
  refine ⟨?_, ?_, ?_⟩
  · intro u msg m' out pre o post e hv hu hn hpre hfail hty
    have hval := validateOutputs_firstFail m' pre o post e
      (normaliseReturn out).length hfail hty 0 hpre
    have htot : (normaliseReturn out).length = pre.length + (post.length + 1) := by
      rw [hn]; simp
    rw [show (0 : Nat) + pre.length = pre.length from by omega] at hval
    nth_rewrite 2 [htot] at hval
    rw [← hn] at hval
    exact handleParsed_processing_error "message" u msg m' _ hv
      (processMessage_message_valid_error u m' out _ hu hval)
  · intro m' exp fields rFields steps curV p actual hexp hp hr hs hcur hint h0 hlen
      hidx hne
    simp only [outputCheck, hexp]
    exact validateMessageSyntax_some_mismatch fields rFields steps curV p exp actual
      hp hr hs hcur hint h0 hlen hidx hne
  · intro u msg m' l hv h
    simp only [handleParsed, hv, if_true] at h
    cases hp : processMessage "message" true u m' with
    | error e =>
      rw [hp] at h
      simp at h
      exact Or.inr ⟨e, h.symm⟩
    | ok outs =>
      rw [hp] at h
      simp at h
      subst h
      exact Or.inl (processMessage_message_ok_inv true u m' _ hp)

/-- C2 witness: a concrete fan-out of two messages where the second moves
the route cursor to a different step name — the whole response collapses
to the indexed route-mismatch error naming steps `a` and `b`. -/
theorem c2_output_validation_witness :
    handleParsed "message" true
      (fun _ => .ok (.arr
        [.obj [("payload", .null),
               ("route", .obj [("steps", .arr [.s "a"]), ("current", .i 0)])],
         .obj [("payload", .null),
               ("route", .obj [("steps", .arr [.s "b"]), ("current", .i 0)])]]))
      (.ok (.obj [("payload", .null),
                  ("route", .obj [("steps", .arr [.s "a"]), ("current", .i 0)])]))
      = .ok (errorResponse "processing_error"
          (valueError ("Invalid output message[1/2]: Route mismatch: " ++
            "input route points to \x27a\x27, but output route points to \x27b\x27. " ++
            "Actor cannot change its current position in the route."))) :=
  c2_output_validation.1
    (fun _ => .ok (.arr
      [.obj [("payload", .null),
             ("route", .obj [("steps", .arr [.s "a"]), ("current", .i 0)])],
       .obj [("payload", .null),
             ("route", .obj [("steps", .arr [.s "b"]), ("current", .i 0)])]]))
    (.obj [("payload", .null),
           ("route", .obj [("steps", .arr [.s "a"]), ("current", .i 0)])])
    (.obj [("payload", .null),
           ("route", .obj [("steps", .arr [.s "a"]), ("current", .i 0)])])
    (.arr
      [.obj [("payload", .null),
             ("route", .obj [("steps", .arr [.s "a"]), ("current", .i 0)])],
       .obj [("payload", .null),
             ("route", .obj [("steps", .arr [.s "b"]), ("current", .i 0)])]])
    [.obj [("payload", .null),
           ("route", .obj [("steps", .arr [.s "a"]), ("current", .i 0)])]]
    (.obj [("payload", .null),
           ("route", .obj [("steps", .arr [.s "b"]), ("current", .i 0)])])
    []
    (valueError ("Route mismatch: input route points to \x27a\x27, " ++
      "but output route points to \x27b\x27. " ++
      "Actor cannot change its current position in the route."))
    rfl rfl rfl
    (by
      intro x hx
      rw [List.mem_singleton] at hx
      subst hx
      exact ⟨_, rfl⟩)
    rfl rfl

/-! ## Claim C7 -/

/-- C7 counterexample: the claim says that when `original_message` is
already a structured envelope, `job_id` is taken from that envelope, and
that a ValueError is raised iff no `job_id` is present.  The code only
unwraps string-valued `original_message`: a wrapper holding an object
`original_message` with an inner `job_id` still raises, and a message
whose `job_id` is present but falsy (the empty string) also raises. -/
theorem c7_counterexample :
    parseErrorMessage (fun _ => .error { ty := "JSONDecodeError", msg := "stub", tb := "" })
      (.obj [("error", .s "boom"),
             ("original_message", .obj [("job_id", .s "j-1")])])
      = .error (valueError "Missing required message key: job_id") ∧
    parseErrorMessage (fun _ => .error { ty := "JSONDecodeError", msg := "stub", tb := "" })
      (.obj [("job_id", .s "")])
      = .error (valueError "Missing required message key: job_id") :=
  ⟨rfl, rfl⟩

/-- C7 (amended): `parse_error_message` unwraps `original_message` only
when it is a JSON string — parsing it and reading `job_id` from the
parsed envelope, and falling back to the raw wrapper when parsing raises
a JSONDecodeError; when `original_message` is already an object the
wrapper is not unwrapped and `job_id` is read from the top-level message
itself.  In every case a ValueError is raised iff the `job_id` read this
way is absent or falsy, and otherwise the result carries that `job_id`,
the unwrapped `payload` (defaulting to the empty dict), and the wrapper
`error` description (defaulting to `"Unknown error"`). -/
theorem c7_error_unwrap :
    (∀ (loads : String → Except PyExc JVal) (fields pFields : List (String × JVal))
        (raw : String),
      fields.lookup "original_message" = some (.s raw) →
      loads raw = .ok (.obj pFields) →
      (pyTruthy ((pFields.lookup "job_id").getD .null) = true →
        parseErrorMessage loads (.obj fields) =
          .ok ((pFields.lookup "job_id").getD .null,
               (pFields.lookup "payload").getD (.obj []),
               (fields.lookup "error").getD (.s "Unknown error"))) ∧
      (pyTruthy ((pFields.lookup "job_id").getD .null) = false →
        parseErrorMessage loads (.obj fields) =
          .error (valueError "Missing required message key: job_id"))) ∧
    (∀ (loads : String → Except PyExc JVal) (fields : List (String × JVal))
        (raw : String) (e : PyExc),
      fields.lookup "original_message" = some (.s raw) →
      loads raw = .error e → e.ty = "JSONDecodeError" →
      (pyTruthy ((fields.lookup "job_id").getD .null) = true →
        parseErrorMessage loads (.obj fields) =
          .ok ((fields.lookup "job_id").getD .null,
               (fields.lookup "payload").getD (.obj []),
               (fields.lookup "error").getD (.s "Unknown error"))) ∧
      (pyTruthy ((fields.lookup "job_id").getD .null) = false →
        parseErrorMessage loads (.obj fields) =
          .error (valueError "Missing required message key: job_id"))) ∧
    (∀ (loads : String → Except PyExc JVal) (fields inner : List (String × JVal)),
      fields.lookup "original_message" = some (.obj inner) →
      (pyTruthy ((fields.lookup "job_id").getD .null) = true →
        parseErrorMessage loads (.obj fields) =
          .ok ((fields.lookup "job_id").getD .null,
               (fields.lookup "payload").getD (.obj []),
               (fields.lookup "error").getD (.s "Unknown error"))) ∧
      (pyTruthy ((fields.lookup "job_id").getD .null) = false →
        parseErrorMessage loads (.obj fields) =
          .error (valueError "Missing required message key: job_id"))) := by
  refine ⟨?_, ?_, ?_⟩
  · intro loads fields pFields raw hom hload
    constructor
    · intro ht
      simp [parseErrorMessage, hom, hload, pyGet, ht]
    · intro ht
      simp [parseErrorMessage, hom, hload, pyGet, ht]
  · intro loads fields raw e hom hload hty
    constructor
    · intro ht
      simp [parseErrorMessage, hom, hload, hty, pyGet, ht]
    · intro ht
      simp [parseErrorMessage, hom, hload, hty, pyGet, ht]
  · intro loads fields inner hom
    constructor
    · intro ht
      simp [parseErrorMessage, hom, pyGet, ht]
    · intro ht
      simp [parseErrorMessage, hom, pyGet, ht]

/-- C7 witness: a string `original_message` parsing to an envelope with a
truthy `job_id` succeeds with the inner `job_id` and payload; a dict
`original_message` wrapper without a top-level `job_id` raises. -/
theorem c7_error_unwrap_witness :
    parseErrorMessage
      (fun _ => .ok (.obj [("job_id", .s "inner"), ("payload", .i 7)]))
      (.obj [("error", .s "boom"), ("original_message", .s "raw")])
      = .ok (.s "inner", .i 7, .s "boom") ∧
    parseErrorMessage
      (fun _ => .ok (.obj [("job_id", .s "inner"), ("payload", .i 7)]))
      (.obj [("error", .s "boom"),
             ("original_message", .obj [("job_id", .s "j-1")])])
      = .error (valueError "Missing required message key: job_id") :=
  ⟨(c7_error_unwrap.1
      (fun _ => .ok (.obj [("job_id", .s "inner"), ("payload", .i 7)]))
      [("error", .s "boom"), ("original_message", .s "raw")]
      [("job_id", .s "inner"), ("payload", .i 7)] "raw" rfl rfl).1 rfl,
   (c7_error_unwrap.2.2
      (fun _ => .ok (.obj [("job_id", .s "inner"), ("payload", .i 7)]))
      [("error", .s "boom"), ("original_message", .obj [("job_id", .s "j-1")])]
      [("job_id", .s "j-1")] rfl).2 rfl⟩

end Asya
